import Mathlib

/-!
Verification of the service lifecycle manager in `src/mage_ai/server/app.py`
(class `ThreadWithTrace` and the module-level `launch` / `kill` functions,
together with the module-level global `thread`).

The Python code is shallowly embedded: each mutable Python object becomes a
Lean structure, each method becomes a pure function from the old state to the
new state (paired with the list of observable effects it performs), and the
module-level global `thread` becomes a supervisor state record.  Exceptions of
the CPython runtime that the code raises or that surrounding code could catch
are modelled by a small class table mirroring the built-in exception
hierarchy.
-/

namespace MageAI

/-- Trace events delivered by the CPython tracing runtime (`sys.settrace`) to
the trace functions: "call", "line", "return" and "exception". -/
inductive Event
  | call
  | line
  | ret
  | exc
  deriving DecidableEq, Repr

/-- The value a trace function may hand back to the runtime: a reference to
`localtrace` (to keep tracing) or Python `None` (stop tracing this scope). -/
inductive TraceFn
  | localtraceRef
  deriving DecidableEq, Repr

/-- Outcome of one invocation of `ThreadWithTrace.localtrace`: either it
raises `SystemExit()` or it returns `self.localtrace` normally. -/
inductive LocaltraceResult
  | raisedSystemExit
  | returned
  deriving DecidableEq, Repr

/-- Embeds `ThreadWithTrace.localtrace` (app.py lines 267-271):

    def localtrace(self, frame, event, arg):
        if self.killed:
            if event == 'line':
                raise SystemExit()
        return self.localtrace

The `frame` and `arg` parameters are unused by the source and omitted. -/
def localtrace (killed : Bool) (event : Event) : LocaltraceResult :=
  if killed then
    if event = Event.line then LocaltraceResult.raisedSystemExit
    else LocaltraceResult.returned
  else LocaltraceResult.returned

/-- Embeds `ThreadWithTrace.globaltrace` (app.py lines 261-265):

    def globaltrace(self, frame, event, arg):
        if event == 'call':
            return self.localtrace
        else:
            return None
-/
def globaltrace (event : Event) : Option TraceFn :=
  if event = Event.call then some TraceFn.localtraceRef else none

/-- Runs `localtrace` over the stream of events the traced callable
generates, in order, with a fixed value of the `killed` flag.  Returns
`some i` when invocation number `i` (0-based) raises `SystemExit`, aborting
the callable there, and `none` when every invocation returns normally. -/
def runLocaltrace (killed : Bool) : List Event → Option Nat
  | [] => none
  | e :: es =>
    match localtrace killed e with
    | LocaltraceResult.raisedSystemExit => some 0
    | LocaltraceResult.returned => (runLocaltrace killed es).map (· + 1)

/-- Index of the first "line" event in an event stream, if any. -/
def firstLineIdx : List Event → Option Nat
  | [] => none
  | e :: es => if e = Event.line then some 0 else (firstLineIdx es).map (· + 1)

/-! ### CPython exception hierarchy (runtime model)

The abort signal the source raises is `SystemExit()`.  Whether a wrapped
callable can intercept it is decided by the CPython class hierarchy:
`SystemExit` derives from `BaseException` directly, NOT from `Exception`;
`ValueError` (a stand-in for ordinary error classes) derives from
`Exception`, which derives from `BaseException`.  A clause `except C` catches
a raised exception `E` exactly when `E` is `C` or a subclass of `C`; a bare
`except:` catches everything. -/

/-- The built-in exception classes relevant to the abort mechanism. -/
inductive ExcClass
  | baseExceptionC
  | exceptionC
  | systemExitC
  | valueErrorC
  deriving DecidableEq, Repr

/-- Reflexive subclass test on the modelled hierarchy. -/
def isSubclassOf (c d : ExcClass) : Bool :=
  match c, d with
  | _, ExcClass.baseExceptionC => true
  | ExcClass.valueErrorC, ExcClass.exceptionC => true
  | c, d => c = d

/-- Whether an `except` clause (with `none` standing for a bare `except:`)
catches a raised exception of class `raised`. -/
def handlerCatches (handler : Option ExcClass) (raised : ExcClass) : Bool :=
  match handler with
  | none => true
  | some c => isSubclassOf raised c

/-- The class of the abort signal raised by `localtrace`: `SystemExit`. -/
def abortSignal : ExcClass := ExcClass.systemExitC

/-! ### ThreadWithTrace -/

/-- The keyword arguments `launch` binds to the target callable
(app.py line 279): `{'port': SERVER_PORT, 'host': 'localhost',
'debug': False}`. -/
structure AppKwargs where
  port : Nat
  host : String
  debug : Bool
  deriving DecidableEq, Repr

/-- Embeds `app_kwargs` from `launch` (app.py line 279).  `SERVER_PORT` is
imported from `mage_ai.server.constants`, a file not present under src/, so
its numeric value is kept as a parameter; `host` and `debug` are the literal
constants of the source. -/
def app_kwargs (serverPort : Nat) : AppKwargs :=
  { port := serverPort, host := "localhost", debug := false }

/-- Observable effects a method of the embedding performs, beyond updating
its own state: spawning a new execution context, blocking the caller in a
join, or printing a line. -/
inductive Effect
  | spawnThread
  | blockJoin
  | printLine (s : String)
  deriving DecidableEq, Repr

/-- State of a `ThreadWithTrace` object (app.py lines 246-274) together with
the state of its underlying `threading.Thread`:
`killed` is the flag set by `ThreadWithTrace.kill`; `runSwapped` records the
`self.run = self.__run` swap done by `start`; `started` and `alive` are the
underlying Thread flags; `kwargs` and `daemon` are the constructor
arguments. -/
structure ThreadWithTrace where
  killed : Bool
  runSwapped : Bool
  started : Bool
  alive : Bool
  kwargs : AppKwargs
  daemon : Bool
  deriving DecidableEq, Repr

/-- Embeds `ThreadWithTrace.__init__` (app.py lines 247-249): forwards to
`threading.Thread.__init__` and sets `self.killed = False`. -/
def ThreadWithTrace.init (kwargs : AppKwargs) (daemon : Bool) : ThreadWithTrace :=
  { killed := false, runSwapped := false, started := false, alive := false
    kwargs := kwargs, daemon := daemon }

/-- Embeds `ThreadWithTrace.kill` (app.py lines 273-274):

    def kill(self):
        self.killed = True

It performs no effect (in particular it never blocks) and touches no other
field. -/
def ThreadWithTrace.kill (t : ThreadWithTrace) : ThreadWithTrace × List Effect :=
  ({ t with killed := true }, [])

/-- Embeds `ThreadWithTrace.start` (app.py lines 251-254): installs the
traced run method (`self.run = self.__run`) and starts the underlying
thread, which begins executing concurrently; `start` itself returns at
once. -/
def ThreadWithTrace.start (t : ThreadWithTrace) : ThreadWithTrace × List Effect :=
  ({ t with runSwapped := true, started := true, alive := true },
   [Effect.spawnThread])

/-- Embeds `threading.Thread.join` as used by the module-level `kill`
(app.py line 288), under the liveness assumption the spec states for an
interceptable callable: the target here (`app.run`, a serve loop) runs until
aborted, so `join` terminates exactly when the stop flag was set before the
join, the tracing hook having then delivered `SystemExit` at the next "line"
event.  Joining an already dead thread returns immediately.  In every case
the caller blocks (the sole blocking operation of the interface). -/
def ThreadWithTrace.join (t : ThreadWithTrace) : ThreadWithTrace × List Effect :=
  (if t.killed then { t with alive := false } else t, [Effect.blockJoin])

/-- Embeds `Thread.isAlive` as read by the module-level `kill`
(app.py line 289). -/
def ThreadWithTrace.isAlive (t : ThreadWithTrace) : Bool := t.alive

/-! ### Module-level supervisor: global `thread`, `launch`, `kill` -/

/-- Python `None`-or-`bool` return value, to state faithfully what the
module-level `kill` returns. -/
inductive PyRet
  | pynone
  | pybool (b : Bool)
  deriving DecidableEq, Repr

/-- The module state: every `ThreadWithTrace` object constructed so far (in
creation order, so an index is an object identity), and the module-level
global `thread` (app.py line 24) as an optional index into that list.
Objects are retained here even after the global stops referring to them,
because the dropped thread object keeps running. -/
structure SysState where
  workers : List ThreadWithTrace
  slot : Option Nat
  deriving DecidableEq, Repr

/-- The initial module state: no worker constructed, `thread = None`. -/
def initState : SysState := { workers := [], slot := none }

/-- Embeds `launch` (app.py lines 277-282):

    def launch() -> None:
        global thread
        app_kwargs = {'port': SERVER_PORT, 'host': 'localhost', 'debug': False}
        thread = ThreadWithTrace(target=app.run, kwargs=app_kwargs, daemon=True)
        thread.start()
        return thread

It takes no target and no config, performs no check of any prior worker,
constructs and starts a fresh `ThreadWithTrace` bound to the fixed
`app_kwargs`, overwrites the global, and returns the new thread (its index
serves as the handle). -/
def launch (serverPort : Nat) (s : SysState) : SysState × Nat :=
  let t0 := ThreadWithTrace.init (app_kwargs serverPort) true
  let t1 := (ThreadWithTrace.start t0).1
  let h := s.workers.length
  ({ workers := s.workers ++ [t1], slot := some h }, h)

/-- Embeds the module-level `kill` (app.py lines 285-290):

    def kill():
        if thread is not None:
            thread.kill()
            thread.join()
            if not thread.isAlive():
                print('Flask server is terminated')

The function has no return statement, so it returns `None` on every path.
It never clears the global. -/
def kill (s : SysState) : SysState × PyRet × List String :=
  match s.slot with
  | none => (s, PyRet.pynone, [])
  | some i =>
    match s.workers.get? i with
    | none => (s, PyRet.pynone, [])
    | some t =>
      let t1 := (ThreadWithTrace.kill t).1
      let t2 := (ThreadWithTrace.join t1).1
      let s2 : SysState := { s with workers := s.workers.set i t2 }
      if t2.isAlive then (s2, PyRet.pynone, [])
      else (s2, PyRet.pynone, ["Flask server is terminated"])

/-- A worker is active when it is in the Running or StopRequested state of
the spec: its execution context has been started and has not terminated. -/
def workerActive (t : ThreadWithTrace) : Bool := t.started && t.alive

/-- Number of simultaneously active workers in a module state. -/
def activeCount (s : SysState) : Nat :=
  (s.workers.filter workerActive).length

/-- The spec-side configuration record for `launch` (spec section 6):
`port` (integer), `host` (string), `debugMode` (boolean). -/
structure LaunchConfig where
  port : Nat
  host : String
  debugMode : Bool
  deriving DecidableEq, Repr

/-- Modelled from the spec (refinement comparison, spec section 6): the
kwargs a spec-conforming `launch(targetCallable, config)` would bind to the
callable, taken from the caller-supplied config. -/
def spec_bound_kwargs (config : LaunchConfig) : AppKwargs :=
  { port := config.port, host := config.host, debug := config.debugMode }

/-! ### Helper lemmas -/

/-- With the stop flag set, the localtrace loop aborts exactly at the first
"line" event of the stream. -/
theorem runLocaltrace_true_eq (events : List Event) :
    runLocaltrace true events = firstLineIdx events := by
  induction events with
  | nil => rfl
  | cons e es ih =>
    cases e <;> simp [runLocaltrace, firstLineIdx, localtrace, ih]

/-- The module-level `kill` returns Python `None` on every path. -/
theorem kill_ret_pynone (s : SysState) : (kill s).2.1 = PyRet.pynone := by
  unfold kill
  split
  · rfl
  · split
    · rfl
    · dsimp only
      split <;> rfl

/-! ### Claims -/

/-- C1: with the stop flag set, the local trace function raises the exit
exception at the first "line" event it observes (aborting the callable
there), and with the flag unset it returns normally on every event. -/
theorem localtrace_aborts_at_first_line :
    (∀ events : List Event, runLocaltrace true events = firstLineIdx events) ∧
    (∀ e : Event, localtrace false e = LocaltraceResult.returned) :=
  ⟨runLocaltrace_true_eq, fun e => by cases e <;> rfl⟩

/-- C2 counterexample: with worker 0 in the Running state, `launch` does not
fail with any error: it constructs, starts and stores a second worker, hands
back a fresh handle, and leaves worker 0 untouched — contradicting the claim
that `launch` fails with `AlreadyRunningError` while a worker is active and
succeeds only when no worker is active. -/
theorem launch_while_active_succeeds :
    ((launch 5789 initState).1.workers.get? 0).map workerActive = some true ∧
    (launch 5789 (launch 5789 initState).1).2 = 1 ∧
    (launch 5789 (launch 5789 initState).1).1.slot = some 1 ∧
    ((launch 5789 (launch 5789 initState).1).1.workers.get? 1).map workerActive
      = some true ∧
    (launch 5789 (launch 5789 initState).1).1.workers.get? 0
      = (launch 5789 initState).1.workers.get? 0 := by
  refine ⟨rfl, rfl, rfl, rfl, rfl⟩

/-- C2 amended: `launch` never fails and performs no check of the prior
worker: in every state it constructs and starts a fresh worker, appends it
(leaving every prior worker unchanged), stores it in the slot, and returns
its handle. -/
theorem launch_always_succeeds (p : Nat) (s : SysState) :
    (launch p s).2 = s.workers.length ∧
    (launch p s).1.slot = some s.workers.length ∧
    (launch p s).1.workers =
      s.workers ++ [(ThreadWithTrace.start (ThreadWithTrace.init (app_kwargs p) true)).1] :=
  ⟨rfl, rfl, rfl⟩

/-- C3 counterexample: with no active worker, `kill` changes no state and
raises nothing, but it returns Python `None`, not the boolean `false` the
claim requires — the source function has no return statement at all. -/
theorem kill_returns_none_not_false :
    (kill initState).1 = initState ∧
    (kill initState).2 = (PyRet.pynone, []) ∧
    PyRet.pynone ≠ PyRet.pybool false :=
  ⟨rfl, rfl, by decide⟩

/-- C3 amended: `kill` returns `None` on every path; with no active worker
it raises nothing, changes no state and prints nothing; with an active
worker it requests the stop, joins, and reports the confirmed termination by
printing "Flask server is terminated" rather than by returning a boolean. -/
theorem kill_contract (s : SysState) (p : Nat) :
    (kill s).2.1 = PyRet.pynone ∧
    kill initState = (initState, PyRet.pynone, []) ∧
    (kill (launch p initState).1).2.2 = ["Flask server is terminated"] :=
  ⟨kill_ret_pynone s, rfl, rfl⟩

/-- C4 counterexample: after a confirming `kill`, the slot still holds
worker 0 (it is never cleared), and a second consecutive `kill` is not a
no-op returning `false`: it finds the worker, prints the confirmation line
again, and returns `None`. -/
theorem second_kill_not_noop :
    (kill (launch 5789 initState).1).1.slot = some 0 ∧
    (kill (kill (launch 5789 initState).1).1).2.2
      = ["Flask server is terminated"] ∧
    (kill (kill (launch 5789 initState).1).1).2.1 = PyRet.pynone ∧
    PyRet.pynone ≠ PyRet.pybool false :=
  ⟨rfl, rfl, rfl, by decide⟩

/-- C4 amended: `kill` never clears the slot, so a second consecutive `kill`
finds the same stopped worker; re-signalling and re-joining it leave the
state unchanged, but the call prints the confirmation line again and returns
`None`. -/
theorem second_kill_behavior (p : Nat) :
    (kill (launch p initState).1).1.slot = (launch p initState).1.slot ∧
    (kill (kill (launch p initState).1).1).1 = (kill (launch p initState).1).1 ∧
    (kill (kill (launch p initState).1).1).2.1 = PyRet.pynone ∧
    (kill (kill (launch p initState).1).1).2.2
      = ["Flask server is terminated"] :=
  ⟨rfl, rfl, rfl, rfl⟩

/-- C5 counterexample: calling `ThreadWithTrace.kill` on a worker that has
not been started raises nothing and performs no effect, yet it does set the
stop flag — contradicting the claim that it fails with `InvalidStateError`
or is a no-op and in particular never sets the flag. -/
theorem requestStop_before_start_sets_flag :
    (ThreadWithTrace.init (app_kwargs 5789) true).started = false ∧
    (ThreadWithTrace.kill (ThreadWithTrace.init (app_kwargs 5789) true)).1.killed
      = true ∧
    (ThreadWithTrace.kill (ThreadWithTrace.init (app_kwargs 5789) true)).2 = [] :=
  ⟨rfl, rfl, rfl⟩

/-- C5 amended: `ThreadWithTrace.kill` performs no state check and never
raises: in every state, including before `start`, it unconditionally sets
the stop flag, changes nothing else, and performs no effect. -/
theorem requestStop_unconditional (t : ThreadWithTrace) :
    (ThreadWithTrace.kill t).1.killed = true ∧
    (ThreadWithTrace.kill t).1.started = t.started ∧
    (ThreadWithTrace.kill t).1.alive = t.alive ∧
    (ThreadWithTrace.kill t).2 = [] :=
  ⟨rfl, rfl, rfl, rfl⟩

/-- C6 counterexample: after two consecutive `launch` calls from the initial
state, two workers are simultaneously in an active (Running or
StopRequested) state — the supervisor does not enforce the at-most-one
invariant. -/
theorem two_launches_two_active :
    activeCount (launch 5789 (launch 5789 initState).1).1 = 2 := by
  rfl

/-- C6 amended: `launch` performs no mutual exclusion: every call adds one
more simultaneously active worker, leaving every previously active worker
active, so after two consecutive launches two workers are active at once;
only the slot reference (the global `thread`) is unique. -/
theorem launch_increments_active (p : Nat) (s : SysState) :
    activeCount (launch p s).1 = activeCount s + 1 := by
  simp [launch, activeCount, ThreadWithTrace.start, ThreadWithTrace.init,
    workerActive, List.filter_append]

/-- C7 counterexample: the abort signal is a `SystemExit`, and a wrapped
callable whose handler catches `BaseException` (or uses a bare `except:`)
does intercept it — contradicting the claim that no error handling in the
callable can intercept the abort. -/
theorem abort_catchable_by_baseexception :
    handlerCatches (some ExcClass.baseExceptionC) abortSignal = true ∧
    handlerCatches none abortSignal = true := by
  decide

/-- C7 amended: the abort signal (`SystemExit`) bypasses the ordinary
error-handling idiom — handlers for `Exception` and its subclasses do not
catch it — but it is not uncatchable: a handler for `BaseException` or a
bare `except:` in the wrapped callable does intercept it. -/
theorem abort_bypasses_exception_handlers :
    handlerCatches (some ExcClass.exceptionC) abortSignal = false ∧
    handlerCatches (some ExcClass.valueErrorC) abortSignal = false ∧
    handlerCatches (some ExcClass.baseExceptionC) abortSignal = true ∧
    handlerCatches none abortSignal = true := by
  decide

/-- C8 counterexample: the caller-supplied config of the claim (for example
port 6789, host "0.0.0.0", debugMode true) is never bound: the worker
`launch` constructs is bound with host "localhost" and debug `false`
regardless, because `launch` takes no config argument at all. -/
theorem launch_ignores_caller_config :
    (spec_bound_kwargs { port := 6789, host := "0.0.0.0", debugMode := true }).host
      = "0.0.0.0" ∧
    (spec_bound_kwargs { port := 6789, host := "0.0.0.0", debugMode := true }).debug
      = true ∧
    ((launch 6789 initState).1.workers.get? 0).map (fun t => t.kwargs.host)
      = some "localhost" ∧
    ((launch 6789 initState).1.workers.get? 0).map (fun t => t.kwargs.debug)
      = some false ∧
    ("localhost" : String) ≠ "0.0.0.0" :=
  ⟨rfl, rfl, rfl, rfl, by decide⟩

/-- C8 amended: `launch` takes no target and no config parameter; it binds
the fixed internal kwargs {port := SERVER_PORT, host := "localhost",
debug := false} with daemon mode on, stores the started worker as the
active slot, and returns it as the handle. -/
theorem launch_fixed_config (p : Nat) (s : SysState) :
    ((launch p s).1.workers.get? (launch p s).2).map ThreadWithTrace.kwargs
      = some (app_kwargs p) ∧
    ((launch p s).1.workers.get? (launch p s).2).map ThreadWithTrace.daemon
      = some true ∧
    (launch p s).1.slot = some (launch p s).2 := by
  refine ⟨?_, ?_, rfl⟩ <;>
    simp [launch, ThreadWithTrace.start, ThreadWithTrace.init]

/-- C9: `ThreadWithTrace.kill` only signals: it sets the stop flag, changes
no other field of the worker, and performs no effect at all — in particular
no blocking join on the worker execution context. -/
theorem requestStop_only_signals (t : ThreadWithTrace) :
    (ThreadWithTrace.kill t).1.killed = true ∧
    (ThreadWithTrace.kill t).1.runSwapped = t.runSwapped ∧
    (ThreadWithTrace.kill t).1.started = t.started ∧
    (ThreadWithTrace.kill t).1.alive = t.alive ∧
    (ThreadWithTrace.kill t).1.kwargs = t.kwargs ∧
    (ThreadWithTrace.kill t).1.daemon = t.daemon ∧
    (ThreadWithTrace.kill t).2 = [] :=
  ⟨rfl, rfl, rfl, rfl, rfl, rfl, rfl⟩

/-- C10: calling `ThreadWithTrace.kill` before `start` raises nothing and
performs no effect, the stop flag persists, and after the subsequent `start`
the traced execution aborts the wrapped callable at the first "line" event
of its event stream — the pre-start stop request is honored. -/
theorem kill_before_start_honored (kw : AppKwargs) (d : Bool) (events : List Event) :
    (ThreadWithTrace.kill (ThreadWithTrace.init kw d)).2 = [] ∧
    (ThreadWithTrace.kill (ThreadWithTrace.init kw d)).1.killed = true ∧
    (ThreadWithTrace.kill (ThreadWithTrace.init kw d)).1.started = false ∧
    (ThreadWithTrace.start (ThreadWithTrace.kill (ThreadWithTrace.init kw d)).1).1.killed
      = true ∧
    runLocaltrace
      (ThreadWithTrace.start (ThreadWithTrace.kill (ThreadWithTrace.init kw d)).1).1.killed
      events = firstLineIdx events :=
  ⟨rfl, rfl, rfl, rfl, runLocaltrace_true_eq events⟩

end MageAI
